import Mathlib

/-!
Verification of the session-lifecycle and catalog logic of the
react-native-multi-tv-app-sample repository.

The development shallowly embeds the relevant TypeScript functions:

* `GameService.ts` — `getGames` (sort comparator), `createStreamSession`
  (regions normalization and request payload);
* `app/game-player.tsx` — `startGameSession`, `waitForSessionReady`
  (the bounded poll loop), `handleCloseSession`, and the mount-effect
  session-creation guard.

Asynchronous API calls are modelled by environments that map each call
site to an `Except String` outcome (`.error` models a thrown JS
exception).  Calls made by the coordinator are recorded in an event
trace so that ordering and counting properties can be stated.  JS
strings are Lean `String`s; absent optional fields are the empty
string, matching the truthiness tests (`!!x`, `x || ''`) the code
performs on them.
-/

namespace GameService

/-- The `Game` interface of `GameService.ts` (`ordering` is a JS number
used only in sign comparisons, modelled as `Int`). -/
structure Game where
  sgId : String
  appId : String
  name : String
  description : String
  preview : String
  ordering : Int
  regions : List String
  staticTile : Bool
  supportedInputs : List String
deriving Repr, DecidableEq

/-- Code-unit comparison of two character lists: `nameLeB a b = true`
iff `a` is lexicographically no greater than `b`.  This models
`String.prototype.localeCompare` as used by the `getGames` comparator:
for the plain code-point collation the repository's data uses,
`g1.name.localeCompare(g2.name) <= 0` is exactly this comparison. -/
def nameLeB : List Char → List Char → Bool
  | [], _ => true
  | _ :: _, [] => false
  | a :: as, b :: bs =>
    if a.toNat < b.toNat then true
    else if b.toNat < a.toNat then false
    else nameLeB as bs

/-- `localeLe s t` models `s.localeCompare(t) <= 0`. -/
def localeLe (s t : String) : Bool :=
  nameLeB s.data t.data

/-- The comparator of `getGames` (`GameService.ts` lines 142-148)
expressed as a boolean "comes no later than" relation:
`gameLEb g1 g2 = true` iff the JS comparator returns a value `<= 0`
on `(g1, g2)` — equal `ordering` falls back to `localeCompare` of
names, otherwise the sign of `g1.ordering - g2.ordering` decides. -/
def gameLEb (g1 g2 : Game) : Bool :=
  if g1.ordering = g2.ordering then localeLe g1.name g2.name
  else decide (g1.ordering ≤ g2.ordering)

/-- `games.sort(comparator)` of `getGames`: a stable comparison sort
consistent with the comparator (JS `Array.prototype.sort` is required
to be stable; any such sort yields a list sorted under `gameLEb`). -/
def sortGames (l : List Game) : List Game :=
  l.insertionSort (fun a b => gameLEb a b = true)

/-- The concrete game list of the specification's sorting scenario. -/
def scenarioGames : List Game :=
  [{ sgId := "sg", appId := "app", name := "B", description := "", preview := "",
     ordering := 1, regions := [], staticTile := false, supportedInputs := [] },
   { sgId := "sg", appId := "app", name := "A", description := "", preview := "",
     ordering := 1, regions := [], staticTile := false, supportedInputs := [] },
   { sgId := "sg", appId := "app", name := "C", description := "", preview := "",
     ordering := 2, regions := [], staticTile := false, supportedInputs := [] }]

/-- The `StreamSession` response shape of `GameService.ts`.  The
optional fields (`region`, `status`, `signalResponse`) are modelled as
strings with `""` for an absent value: the code only tests them for
truthiness (`!!x`, `x || ''`), and `""` and `undefined` are equally
falsy. -/
structure StreamSession where
  arn : String
  region : String
  status : String
  signalResponse : String
deriving Repr, DecidableEq

/-- The `StartStreamRequest` body of `createStreamSession`. -/
structure StartStreamRequest where
  AppIdentifier : String
  SGIdentifier : String
  UserId : String
  SignalRequest : String
  Regions : List String
deriving Repr, DecidableEq

/-- The `regions: string[] | string` parameter of `createStreamSession`
(a TS union type). -/
inductive RegionsArg where
  | one (s : String)
  | many (l : List String)
deriving Repr, DecidableEq

/-- The declared default `['us-west-2']` of the `regions` parameter. -/
def defaultRegionsArg : RegionsArg := RegionsArg.many ["us-west-2"]

/-- `Array.isArray(regions) ? regions : [regions]`
(`GameService.ts` line 175). -/
def normalizeRegions : RegionsArg → List String
  | RegionsArg.one s => [s]
  | RegionsArg.many l => l

/-- The request payload built by `createStreamSession`
(`GameService.ts` lines 196-202); `none` for `regions` models an
omitted argument, which TS replaces by the declared default. -/
def createStreamSessionPayload (appId sgId signalRequest : String)
    (regions : Option RegionsArg) : StartStreamRequest :=
  let regionsArray := normalizeRegions (regions.getD defaultRegionsArg)
  { AppIdentifier := appId, SGIdentifier := sgId, UserId := "DefaultUser",
    SignalRequest := signalRequest, Regions := regionsArray }

end GameService

namespace GamePlayer

open GameService

/-- The `sessionState` React state of `GamePlayerScreen`
(`game-player.tsx` lines 199-205). -/
structure SessionViewState where
  status : String
  sessionArn : String
  region : String
  error : String
  signalResponse : String
deriving Repr, DecidableEq

/-- The coordinator-relevant React state of `GamePlayerScreen`:
`sessionState`, `streamReady`, `pollingTimeout` and the `isPolling`
poll-loop guard. -/
structure Coord where
  sessionState : SessionViewState
  streamReady : Bool
  pollingTimeout : Bool
  isPolling : Bool
deriving Repr, DecidableEq

/-- Observable actions of the coordinator, in program order:
backend calls (`createSession`, `getSessionStatus` outcomes,
`terminateStreamSession`), the SDK call `processSignalResponse`,
`setStreamReady(true)`, `console.error` logging, and `router.back()`. -/
inductive Event where
  | createSession
  | statusOk (sd : StreamSession)
  | statusErr (e : String)
  | consumeSignal (s : String)
  | streamReadySet
  | terminateCall
  | logError (msg : String)
  | navBack
deriving Repr, DecidableEq

/-- Recognizes a `getSessionStatus` request (whatever its outcome). -/
def isGetStatusEvent : Event → Bool
  | Event.statusOk _ => true
  | Event.statusErr _ => true
  | _ => false

/-- Number of `getSessionStatus` requests in a trace. -/
def countGetStatus (evs : List Event) : Nat :=
  evs.countP isGetStatusEvent

/-- Recognizes a backend `terminateStreamSession` call. -/
def isTerminateEvent : Event → Bool
  | Event.terminateCall => true
  | _ => false

/-- Number of backend terminate calls in a trace. -/
def countTerminate (evs : List Event) : Nat :=
  evs.countP isTerminateEvent

/-- Environment of one `waitForSessionReady` invocation: the timeout
argument, the wall-clock time elapsed since `startTime` when iteration
`i` begins, the outcome of the `getSessionStatus` call of iteration
`i`, and the outcome of `processSignalResponse` on a given payload. -/
structure PollEnv where
  timeoutMs : Nat
  elapsed : Nat → Nat
  statusResult : Nat → Except String StreamSession
  consumeResult : String → Except String Unit

/-- Error text of the wall-clock-timeout branch. -/
def errTimeoutMsg : String := "Timeout waiting for session to be ready"

/-- Error text of the attempt-exhaustion branches. -/
def errMaxAttemptsMsg (m : Nat) : String :=
  "Maximum polling attempts (" ++ toString m ++ ") reached. Session may still be initializing."

/-- Error text of the poll-iteration catch branch. -/
def errStatusCheckMsg (e : String) : String :=
  "Failed to check session status: " ++ e

/-- Error text of the `processSignalResponse` catch branch. -/
def errProcessSignalMsg (e : String) : String :=
  "Failed to process signal response: " ++ e

/-- Result of the `for` loop of `waitForSessionReady`: the coordinator
state, the event trace, the final value of the `attempts` variable,
and whether the loop exited via `return` (as opposed to `break` or
running out of iterations). -/
structure LoopOut where
  coord : Coord
  events : List Event
  attempts : Nat
  early : Bool
deriving Repr

/-- The `for (let i = 0; i < maxAttempts; i++)` loop of
`waitForSessionReady` (`game-player.tsx` lines 488-584), iteration by
iteration.  `fuel` is the number of remaining iterations
(`maxAttempts - i`); each iteration checks the wall-clock budget,
issues `getSessionStatus`, applies the degraded active heuristic
`status === 'ACTIVE' || !!signalResponse`, processes a non-empty
signal response, and otherwise sleeps and continues — or breaks on the
last attempt. -/
def pollLoop (env : PollEnv) (maxAtt : Nat) : Nat → Nat → Coord → List Event → LoopOut
  | 0, i, c, evs => ⟨c, evs, i, false⟩
  | fuel + 1, i, c, evs =>
    if env.timeoutMs ≤ env.elapsed i then
      ⟨{ c with
           pollingTimeout := true
           sessionState := { c.sessionState with status := "ERROR", error := errTimeoutMsg } },
       evs, i + 1, false⟩
    else
      match env.statusResult i with
      | Except.error e =>
        ⟨{ c with sessionState :=
             { c.sessionState with status := "ERROR", error := errStatusCheckMsg e } },
         evs ++ [Event.statusErr e], i + 1, false⟩
      | Except.ok sd =>
        let evs2 := evs ++ [Event.statusOk sd]
        if sd.status = "ACTIVE" ∨ sd.signalResponse ≠ "" then
          let c2 := { c with sessionState := { c.sessionState with
              status := "ACTIVE", sessionArn := sd.arn, region := sd.region,
              signalResponse := sd.signalResponse } }
          if sd.signalResponse ≠ "" then
            match env.consumeResult sd.signalResponse with
            | Except.ok _ =>
              ⟨{ c2 with streamReady := true },
               evs2 ++ [Event.consumeSignal sd.signalResponse, Event.streamReadySet],
               i + 1, true⟩
            | Except.error e =>
              ⟨{ c2 with sessionState := { c2.sessionState with
                   status := "ERROR", error := errProcessSignalMsg e } },
               evs2 ++ [Event.consumeSignal sd.signalResponse], i + 1, true⟩
          else
            ⟨{ c2 with streamReady := true }, evs2 ++ [Event.streamReadySet], i + 1, true⟩
        else
          if i = maxAtt - 1 then
            ⟨{ c with sessionState := { c.sessionState with
                 status := "ERROR", error := errMaxAttemptsMsg maxAtt } },
             evs2, i + 1, false⟩
          else
            pollLoop env maxAtt fuel (i + 1) c evs2

/-- `const maxAttempts = 10` (`game-player.tsx` line 483). -/
def maxAttempts : Nat := 10

/-- `timeoutMs: number = 60000`, the default timeout argument. -/
def defaultTimeoutMs : Nat := 60000

/-- `waitForSessionReady` (`game-player.tsx` lines 471-601): the
`isPolling` re-entrance guard, the bounded loop, the
`finally { setIsPolling(false) }`, and the post-loop
`if (attempts >= maxAttempts)` error overwrite (skipped when the loop
exited via `return`). -/
def waitForSessionReady (env : PollEnv) (c : Coord) : Coord × List Event :=
  if c.isPolling then (c, [])
  else
    let out := pollLoop env maxAttempts maxAttempts 0 { c with isPolling := true } []
    let c1 := { out.coord with isPolling := false }
    if out.early then (c1, out.events)
    else if maxAttempts ≤ out.attempts then
      ({ c1 with sessionState := { c1.sessionState with
           status := "ERROR", error := errMaxAttemptsMsg maxAttempts } }, out.events)
    else (c1, out.events)

/-- Environment of one `startGameSession` invocation: the outcome of
the `createStreamSession` call, and the poll environment for the
subsequent `waitForSessionReady`. -/
structure StartEnv where
  createResult : Except String StreamSession
  poll : PollEnv

/-- `leadsWith pat l = true` iff `pat` is an initial segment of `l`. -/
def leadsWith : List Char → List Char → Bool
  | [], _ => true
  | _ :: _, [] => false
  | a :: as, b :: bs => a = b && leadsWith as bs

/-- `occursIn pat l = true` iff `pat` occurs contiguously in `l`. -/
def occursIn (pat : List Char) : List Char → Bool
  | [] => leadsWith pat []
  | b :: bs => leadsWith pat (b :: bs) || occursIn pat bs

/-- `s.includes(pat)` of JS strings. -/
def containsSubstr (s pat : String) : Bool :=
  occursIn pat.data s.data

/-- The substring `startGameSession` looks for to classify a failure
as a connectivity problem. -/
def netErrPattern : String := "Network request failed"

/-- The network-specific error text of `startGameSession`. -/
def netErrMsg : String :=
  "Network error: Unable to connect to the API. Please check your internet connection."

/-- `startGameSession` (`game-player.tsx` lines 413-466): set
`CREATING_SESSION`, call `createStreamSession`; on success store the
`arn`, move to `WAITING_FOR_SESSION` and run `waitForSessionReady`; on
failure classify the error message (`includes('Network request
failed')`) into a network-specific or generic API error text. -/
def startGameSession (env : StartEnv) (c : Coord) : Coord × List Event :=
  let c0 := { c with sessionState :=
    { status := "CREATING_SESSION", sessionArn := "", region := "",
      error := "", signalResponse := "" } }
  match env.createResult with
  | Except.ok resp =>
    let c1 := { c0 with sessionState := { c0.sessionState with
        status := "WAITING_FOR_SESSION", sessionArn := resp.arn } }
    let r := waitForSessionReady env.poll c1
    (r.1, Event.createSession :: r.2)
  | Except.error msg =>
    if msg ≠ "" ∧ containsSubstr msg netErrPattern = true then
      ({ c0 with sessionState := { c0.sessionState with
           status := "ERROR", error := netErrMsg } },
       [Event.createSession])
    else
      ({ c0 with sessionState := { c0.sessionState with
           status := "ERROR",
           error := "API Error: " ++ (if msg = "" then "Unknown API error" else msg) } },
       [Event.createSession])

/-- The `try { if (arn) await terminateStreamSession } catch { log }`
body shared by all branches of `handleCloseSession`: no backend call
when the stored arn is empty; a failing call is logged, not
re-thrown. -/
def terminateAttemptEvents (arn : String) (r : Except String Unit) : List Event :=
  if arn = "" then []
  else
    match r with
    | Except.ok _ => [Event.terminateCall]
    | Except.error e =>
      [Event.terminateCall, Event.logError ("Error terminating session: " ++ e)]

/-- `handleCloseSession` (`game-player.tsx` lines 603-656).
`confirmed` is the user's answer to the confirmation dialog (relevant
only when `skipConfirmation` is false).  The returned state equals the
input state: the handler never mutates `sessionState` — in particular
it never clears `sessionArn`.  `router.back()` runs in the `finally`
of the confirmed path; in the skip path the `finally` is guarded by
`!skipConfirmation` and never navigates. -/
def handleCloseSession (skipConfirmation confirmed : Bool) (st : SessionViewState)
    (r : Except String Unit) : SessionViewState × List Event :=
  if skipConfirmation = false then
    if confirmed then
      (st, terminateAttemptEvents st.sessionArn r ++ [Event.navBack])
    else (st, [])
  else
    (st, terminateAttemptEvents st.sessionArn r)

/-- Environment of the mount effect (`game-player.tsx` lines 755-777):
whether `initializeSDK()` succeeded, whether `params.sessionArn` was
supplied by navigation, and whether
`isAuthenticated && appId && sgId` holds. -/
structure MountEnv where
  sdkOk : Bool
  hasArnParam : Bool
  authedWithIds : Bool
deriving Repr, DecidableEq

/-- State read and written by the mount effect: the current
`sessionState.sessionArn` and the `sessionCreated` guard flag. -/
structure MountState where
  sessionArn : String
  sessionCreated : Bool
deriving Repr, DecidableEq

/-- The mount effect of `GamePlayerScreen` (`game-player.tsx` lines
755-777); the returned boolean records whether `startGameSession` was
invoked. -/
def mountEffect (env : MountEnv) (st : MountState) : MountState × Bool :=
  if env.sdkOk = false then (st, false)
  else if env.hasArnParam then ({ st with sessionCreated := true }, false)
  else if env.authedWithIds = true ∧ st.sessionArn = "" ∧ st.sessionCreated = false then
    ({ st with sessionCreated := true }, true)
  else (st, false)

/-- A `getSessionStatus` outcome that does not satisfy the active
heuristic: a normal response whose status is not `ACTIVE` and that
carries no signal response. -/
def resultInactive (r : Except String StreamSession) : Prop :=
  ∃ sd, r = Except.ok sd ∧ sd.status ≠ "ACTIVE" ∧ sd.signalResponse = ""

/-- Every `processSignalResponse` call in the trace happens right
after the `getSessionStatus` response that delivered its (non-empty)
payload. -/
def consumePreceded (evs : List Event) : Prop :=
  ∀ s, Event.consumeSignal s ∈ evs →
    s ≠ "" ∧ ∃ sd pre post, sd.signalResponse = s ∧
      evs = pre ++ Event.statusOk sd :: Event.consumeSignal s :: post

/-- Initial coordinator state of `GamePlayerScreen`. -/
def initCoord : Coord :=
  { sessionState := { status := "INITIALIZING", sessionArn := "", region := "",
                      error := "", signalResponse := "" },
    streamReady := false, pollingTimeout := false, isPolling := false }

/-- A pending status response (no signal). -/
def pendingSession : StreamSession :=
  { arn := "s1", region := "", status := "PENDING", signalResponse := "" }

/-- The active status response of the specification's scenario. -/
def activeSessionR : StreamSession :=
  { arn := "s1", region := "us-west-2", status := "ACTIVE", signalResponse := "R" }

/-- Poll environment where the backend forever answers `PENDING`. -/
def foreverPendingEnv : PollEnv :=
  { timeoutMs := 60000, elapsed := fun _ => 0,
    statusResult := fun _ => Except.ok pendingSession,
    consumeResult := fun _ => Except.ok () }

/-- Poll environment of the scenario: first poll already active with
signal response `R`. -/
def scenarioPollEnv : PollEnv :=
  { timeoutMs := 60000, elapsed := fun _ => 0,
    statusResult := fun _ => Except.ok activeSessionR,
    consumeResult := fun _ => Except.ok () }

/-- Start environment of the scenario: `createSession` returns
`{arn:"s1"}`, then the poll finds the session active. -/
def scenarioStartEnv : StartEnv :=
  { createResult := Except.ok { arn := "s1", region := "", status := "", signalResponse := "" },
    poll := scenarioPollEnv }

/-- Poll environment whose third `getSessionStatus` call throws. -/
def throwingPollEnv : PollEnv :=
  { timeoutMs := 60000, elapsed := fun _ => 0,
    statusResult := fun j => if j < 2 then Except.ok pendingSession else Except.error "boom",
    consumeResult := fun _ => Except.ok () }

/-- Start environment where `createStreamSession` throws a network
error. -/
def netFailStartEnv : StartEnv :=
  { createResult := Except.error "Network request failed: timeout",
    poll := foreverPendingEnv }

/-- Session state of an established session (used by the teardown
scenarios). -/
def liveState : SessionViewState :=
  { status := "ACTIVE", sessionArn := "s1", region := "us-west-2",
    error := "", signalResponse := "R" }

end GamePlayer

open GameService GamePlayer

theorem nameLeB_total : ∀ a b, nameLeB a b = true ∨ nameLeB b a = true := by
  intro a
  induction a with
  | nil => intro b; left; simp [nameLeB]
  | cons x xs ih =>
    intro b
    cases b with
    | nil => right; simp [nameLeB]
    | cons y ys =>
      by_cases hxy : x.toNat < y.toNat
      · left; simp [nameLeB, hxy]
      · by_cases hyx : y.toNat < x.toNat
        · right; simp [nameLeB, hyx]
        · rcases ih ys with h | h
          · left; simp [nameLeB, hxy, hyx, h]
          · right; simp [nameLeB, hxy, hyx, h]

theorem nameLeB_trans :
    ∀ a b c, nameLeB a b = true → nameLeB b c = true → nameLeB a c = true := by
  intro a
  induction a with
  | nil => intro b c _ _; simp [nameLeB]
  | cons x xs ih =>
    intro b c hab hbc
    cases b with
    | nil => simp [nameLeB] at hab
    | cons y ys =>
      cases c with
      | nil => simp [nameLeB] at hbc
      | cons z zs =>
        simp only [nameLeB] at hab hbc ⊢
        have hab2 : x.toNat < y.toNat ∨ (x.toNat = y.toNat ∧ nameLeB xs ys = true) := by
          by_cases h1 : x.toNat < y.toNat
          · exact Or.inl h1
          · by_cases h2 : y.toNat < x.toNat
            · simp [h1, h2] at hab
            · exact Or.inr ⟨by omega, by simpa [h1, h2] using hab⟩
        have hbc2 : y.toNat < z.toNat ∨ (y.toNat = z.toNat ∧ nameLeB ys zs = true) := by
          by_cases h1 : y.toNat < z.toNat
          · exact Or.inl h1
          · by_cases h2 : z.toNat < y.toNat
            · simp [h1, h2] at hbc
            · exact Or.inr ⟨by omega, by simpa [h1, h2] using hbc⟩
        rcases hab2 with h1 | ⟨he1, ht1⟩ <;> rcases hbc2 with h2 | ⟨he2, ht2⟩
        · have hxz : x.toNat < z.toNat := by omega
          simp [hxz]
        · have hxz : x.toNat < z.toNat := by omega
          simp [hxz]
        · have hxz : x.toNat < z.toNat := by omega
          simp [hxz]
        · have hxz : ¬ x.toNat < z.toNat := by omega
          have hzx : ¬ z.toNat < x.toNat := by omega
          simp only [hxz, hzx, if_false]
          exact ih ys zs ht1 ht2

theorem gameLEb_total : ∀ a b : Game, gameLEb a b = true ∨ gameLEb b a = true := by
  intro a b
  by_cases h : a.ordering = b.ordering
  · simpa [gameLEb, localeLe, h] using nameLeB_total a.name.data b.name.data
  · have h2 : ¬ b.ordering = a.ordering := fun he => h he.symm
    rcases Int.le_total a.ordering b.ordering with hle | hle
    · left; simp [gameLEb, h, hle]
    · right; simp [gameLEb, h2, hle]

theorem gameLEb_trans :
    ∀ a b c : Game, gameLEb a b = true → gameLEb b c = true → gameLEb a c = true := by
  intro a b c hab hbc
  by_cases h1 : a.ordering = b.ordering <;>
    by_cases h2 : b.ordering = c.ordering
  · have h3 : a.ordering = c.ordering := h1.trans h2
    simp only [gameLEb, localeLe, h1, h2, h3, if_true] at hab hbc ⊢
    exact nameLeB_trans _ _ _ hab hbc
  · have h3 : ¬ a.ordering = c.ordering := h1 ▸ h2
    simp only [gameLEb, h1, h2, h3, if_true, if_false, decide_eq_true_eq] at hbc ⊢
    exact hbc
  · have h3 : ¬ a.ordering = c.ordering := fun he => h1 (he.trans h2.symm)
    simp only [gameLEb, h1, h2, h3, if_true, if_false, decide_eq_true_eq] at hab ⊢
    exact h2 ▸ hab
  · simp only [gameLEb, h1, h2, if_false, decide_eq_true_eq] at hab hbc
    by_cases h3 : a.ordering = c.ordering
    · exfalso; omega
    · simp only [gameLEb, h3, if_false, decide_eq_true_eq]
      omega

/-- C4: every catalog fetch result is sorted by ascending `ordering`,
with equal-`ordering` entries ordered by locale string comparison of
`name`; on the scenario input `[{1,"B"},{1,"A"},{2,"C"}]` the name
order is `["A","B","C"]`. -/
theorem C4_getGames_sorted :
    (∀ l : List Game,
       (sortGames l).Perm l ∧
       (sortGames l).Pairwise (fun g1 g2 =>
         g1.ordering < g2.ordering ∨
         (g1.ordering = g2.ordering ∧ localeLe g1.name g2.name = true))) ∧
    (sortGames scenarioGames).map (fun g => g.name) = ["A", "B", "C"] := by
  constructor
  · intro l
    constructor
    · exact List.perm_insertionSort _ l
    · haveI : IsTotal Game (fun a b => gameLEb a b = true) := ⟨gameLEb_total⟩
      haveI : IsTrans Game (fun a b => gameLEb a b = true) := ⟨gameLEb_trans⟩
      have hs := List.sorted_insertionSort (fun a b => gameLEb a b = true) l
      refine hs.imp ?_
      intro g1 g2 h
      by_cases he : g1.ordering = g2.ordering
      · exact Or.inr ⟨he, by simpa [gameLEb, he] using h⟩
      · refine Or.inl ?_
        have hle : g1.ordering ≤ g2.ordering := by
          simpa [gameLEb, he] using h
        omega
  · decide

theorem countGetStatus_append (l1 l2 : List Event) :
    countGetStatus (l1 ++ l2) = countGetStatus l1 + countGetStatus l2 := by
  simp [countGetStatus, List.countP_append]

theorem countGetStatus_statusOk (sd : StreamSession) :
    countGetStatus [Event.statusOk sd] = 1 := by
  simp [countGetStatus, List.countP_cons, List.countP_nil, isGetStatusEvent]

theorem countGetStatus_statusErr (e : String) :
    countGetStatus [Event.statusErr e] = 1 := by
  simp [countGetStatus, List.countP_cons, List.countP_nil, isGetStatusEvent]

theorem countGetStatus_consumePair (s : String) :
    countGetStatus [Event.consumeSignal s, Event.streamReadySet] = 0 := by
  simp [countGetStatus, List.countP_cons, List.countP_nil, isGetStatusEvent]

theorem countGetStatus_consumeOne (s : String) :
    countGetStatus [Event.consumeSignal s] = 0 := by
  simp [countGetStatus, List.countP_cons, List.countP_nil, isGetStatusEvent]

theorem countGetStatus_ready :
    countGetStatus [Event.streamReadySet] = 0 := by
  simp [countGetStatus, List.countP_cons, List.countP_nil, isGetStatusEvent]

theorem pollLoop_count_le (env : PollEnv) (m : Nat) :
    ∀ fuel i c evs,
      countGetStatus (pollLoop env m fuel i c evs).events ≤ countGetStatus evs + fuel := by
  intro fuel
  induction fuel with
  | zero => intro i c evs; simp [pollLoop]
  | succ f ih =>
    intro i c evs
    simp only [pollLoop]
    by_cases ht : env.timeoutMs ≤ env.elapsed i
    · simp [ht]
    · simp only [ht, if_false]
      cases hs : env.statusResult i with
      | error e =>
        simp [countGetStatus_append, countGetStatus_statusErr]
      | ok sd =>
        by_cases ha : sd.status = "ACTIVE" ∨ sd.signalResponse ≠ ""
        · simp only [ha, if_true]
          by_cases hsr : sd.signalResponse = ""
          · simp only [hsr]
            simp [countGetStatus, List.countP_append, List.countP_cons, List.countP_nil,
              isGetStatusEvent]
          · rw [if_pos (show sd.signalResponse ≠ "" from hsr)]
            cases hc : env.consumeResult sd.signalResponse with
            | ok _ =>
              simp [countGetStatus, List.countP_append, List.countP_cons, List.countP_nil,
                isGetStatusEvent]
            | error e =>
              simp [countGetStatus, List.countP_append, List.countP_cons, List.countP_nil,
                isGetStatusEvent]
        · simp only [ha, if_false]
          by_cases hl : i = m - 1
          · simp [hl, countGetStatus_append, countGetStatus_statusOk]
          · simp only [hl, if_false]
            have h2 := ih (i + 1) c (evs ++ [Event.statusOk sd])
            rw [countGetStatus_append, countGetStatus_statusOk] at h2
            omega

theorem pollLoop_count_timeout (env : PollEnv) (m : Nat) (k : Nat)
    (hk : env.timeoutMs ≤ env.elapsed k) :
    ∀ fuel i c evs, i ≤ k →
      countGetStatus (pollLoop env m fuel i c evs).events ≤ countGetStatus evs + (k - i) := by
  intro fuel
  induction fuel with
  | zero => intro i c evs _; simp [pollLoop]
  | succ f ih =>
    intro i c evs hik
    simp only [pollLoop]
    by_cases ht : env.timeoutMs ≤ env.elapsed i
    · simp [ht]
    · have hik2 : i < k := by
        rcases Nat.lt_or_ge i k with h | h
        · exact h
        · have he : i = k := le_antisymm hik h
          subst he; exact absurd hk ht
      simp only [ht, if_false]
      cases hs : env.statusResult i with
      | error e =>
        simp [countGetStatus, List.countP_append, List.countP_cons, List.countP_nil,
          isGetStatusEvent]
        omega
      | ok sd =>
        by_cases ha : sd.status = "ACTIVE" ∨ sd.signalResponse ≠ ""
        · simp only [ha, if_true]
          by_cases hsr : sd.signalResponse = ""
          · simp only [hsr]
            simp [countGetStatus, List.countP_append, List.countP_cons, List.countP_nil,
              isGetStatusEvent]
            omega
          · rw [if_pos (show sd.signalResponse ≠ "" from hsr)]
            cases hc : env.consumeResult sd.signalResponse with
            | ok _ =>
              simp [countGetStatus, List.countP_append, List.countP_cons, List.countP_nil,
                isGetStatusEvent]
              omega
            | error e =>
              simp [countGetStatus, List.countP_append, List.countP_cons, List.countP_nil,
                isGetStatusEvent]
              omega
        · simp only [ha, if_false]
          by_cases hl : i = m - 1
          · simp [hl, countGetStatus, List.countP_append, List.countP_cons, List.countP_nil,
              isGetStatusEvent]
            omega
          · simp only [hl, if_false]
            have h2 := ih (i + 1) c (evs ++ [Event.statusOk sd]) hik2
            rw [countGetStatus_append, countGetStatus_statusOk] at h2
            omega

theorem pollLoop_inactive (env : PollEnv) (m : Nat)
    (hall : ∀ j, resultInactive (env.statusResult j)) :
    ∀ fuel i c evs, fuel + i = m → 0 < fuel →
      (pollLoop env m fuel i c evs).early = false ∧
      (pollLoop env m fuel i c evs).coord.sessionState.status = "ERROR" ∧
      ((pollLoop env m fuel i c evs).coord.sessionState.error = errTimeoutMsg ∨
       (pollLoop env m fuel i c evs).coord.sessionState.error = errMaxAttemptsMsg m) := by
  intro fuel
  induction fuel with
  | zero => intro i c evs _ h0; exact absurd h0 (by omega)
  | succ f ih =>
    intro i c evs hfi _
    simp only [pollLoop]
    by_cases ht : env.timeoutMs ≤ env.elapsed i
    · rw [if_pos ht]
      exact ⟨rfl, rfl, Or.inl rfl⟩
    · obtain ⟨sd, hsd, hstat, hsig⟩ := hall i
      rw [if_neg ht]
      simp only [hsd]
      have hact : ¬ (sd.status = "ACTIVE" ∨ sd.signalResponse ≠ "") := by
        rintro (h | h)
        · exact hstat h
        · exact h hsig
      rw [if_neg hact]
      by_cases hl : i = m - 1
      · rw [if_pos hl]
        exact ⟨rfl, rfl, Or.inr rfl⟩
      · rw [if_neg hl]
        exact ih (i + 1) c (evs ++ [Event.statusOk sd]) (by omega) (by omega)

theorem waitForSessionReady_events (env : PollEnv) (c : Coord) (h : c.isPolling = false) :
    (waitForSessionReady env c).2 =
      (pollLoop env maxAttempts maxAttempts 0 { c with isPolling := true } []).events := by
  simp only [waitForSessionReady, h, Bool.false_eq_true, if_false]
  split
  · rfl
  · split
    · rfl
    · rfl

/-- C1: in any session attempt the poll loop issues at most 10
`getSessionStatus` requests (never an 11th); once the wall-clock
budget is exhausted at iteration `k` no request of index `>= k` is
issued; and when the backend never reports the session active the
attempt ends in coordinator state `ERROR` with a timed-out reason
(the wall-clock-timeout text or the attempt-exhaustion text). -/
theorem C1_poll_budget :
    (∀ env c, countGetStatus (waitForSessionReady env c).2 ≤ 10) ∧
    (∀ env c k, env.timeoutMs ≤ env.elapsed k →
       countGetStatus (waitForSessionReady env c).2 ≤ k) ∧
    (∀ env c, c.isPolling = false → (∀ j, resultInactive (env.statusResult j)) →
       (waitForSessionReady env c).1.sessionState.status = "ERROR" ∧
       ((waitForSessionReady env c).1.sessionState.error = errTimeoutMsg ∨
        (waitForSessionReady env c).1.sessionState.error = errMaxAttemptsMsg 10)) := by
  refine ⟨?_, ?_, ?_⟩
  · intro env c
    by_cases h : c.isPolling
    · simp [waitForSessionReady, h, countGetStatus]
    · have h2 : c.isPolling = false := by simpa using h
      rw [waitForSessionReady_events env c h2]
      have hb := pollLoop_count_le env maxAttempts maxAttempts 0
        { c with isPolling := true } []
      simpa [countGetStatus, maxAttempts] using hb
  · intro env c k hk
    by_cases h : c.isPolling
    · simp [waitForSessionReady, h, countGetStatus]
    · have h2 : c.isPolling = false := by simpa using h
      rw [waitForSessionReady_events env c h2]
      have hb := pollLoop_count_timeout env maxAttempts k hk maxAttempts 0
        { c with isPolling := true } [] (Nat.zero_le k)
      simpa [countGetStatus] using hb
  · intro env c hp hall
    obtain ⟨he, hs, herr⟩ := pollLoop_inactive env maxAttempts hall maxAttempts 0
      { c with isPolling := true } [] rfl (by simp [maxAttempts])
    simp only [waitForSessionReady, hp, Bool.false_eq_true, if_false]
    rw [if_neg (by simp [he])]
    by_cases hA : maxAttempts ≤
        (pollLoop env maxAttempts maxAttempts 0 { c with isPolling := true } []).attempts
    · rw [if_pos hA]
      exact ⟨rfl, Or.inr rfl⟩
    · rw [if_neg hA]
      exact ⟨hs, herr⟩

/-- Witness for C1: with a backend that forever answers `PENDING`,
the attempt ends in `ERROR` with a timed-out reason. -/
theorem C1_poll_budget_witness :
    (waitForSessionReady foreverPendingEnv initCoord).1.sessionState.status = "ERROR" ∧
    ((waitForSessionReady foreverPendingEnv initCoord).1.sessionState.error = errTimeoutMsg ∨
     (waitForSessionReady foreverPendingEnv initCoord).1.sessionState.error =
       errMaxAttemptsMsg 10) :=
  C1_poll_budget.2.2 foreverPendingEnv initCoord rfl
    (fun _ => ⟨pendingSession, rfl, by decide, rfl⟩)

theorem pollLoop_error_reach (env : PollEnv) (k : Nat) (e : String)
    (hk : ∀ j, j < k → resultInactive (env.statusResult j))
    (hke : env.statusResult k = Except.error e)
    (ht : ∀ j, j ≤ k → env.elapsed j < env.timeoutMs)
    (hkm : k < 10) :
    ∀ fuel i c evs, fuel + i = maxAttempts → i ≤ k →
      (pollLoop env maxAttempts fuel i c evs).coord =
        { c with sessionState := { c.sessionState with
            status := "ERROR", error := errStatusCheckMsg e } } ∧
      countGetStatus (pollLoop env maxAttempts fuel i c evs).events =
        countGetStatus evs + (k + 1 - i) ∧
      (pollLoop env maxAttempts fuel i c evs).attempts = k + 1 ∧
      (pollLoop env maxAttempts fuel i c evs).early = false := by
  have hm : maxAttempts = 10 := rfl
  intro fuel
  induction fuel with
  | zero => intro i c evs hfi hik; exact absurd hfi (by omega)
  | succ f ih =>
    intro i c evs hfi hik
    simp only [pollLoop]
    have htl : ¬ env.timeoutMs ≤ env.elapsed i := by
      have := ht i hik
      omega
    rw [if_neg htl]
    by_cases hikk : i = k
    · subst hikk
      simp only [hke, countGetStatus_append, countGetStatus_statusErr, true_and, and_true]
      omega
    · have hik2 : i < k := lt_of_le_of_ne hik hikk
      obtain ⟨sd, hsd, hstat, hsig⟩ := hk i hik2
      simp only [hsd]
      have hact : ¬ (sd.status = "ACTIVE" ∨ sd.signalResponse ≠ "") := by
        rintro (h | h)
        · exact hstat h
        · exact h hsig
      rw [if_neg hact]
      have hl : ¬ i = maxAttempts - 1 := by omega
      rw [if_neg hl]
      obtain ⟨h1, h2, h3, h4⟩ := ih (i + 1) c (evs ++ [Event.statusOk sd])
        (by omega) (by omega)
      refine ⟨h1, ?_, h3, h4⟩
      rw [h2, countGetStatus_append, countGetStatus_statusOk]
      omega

/-- C3: when a poll iteration's `getSessionStatus` throws, the loop
aborts at once — exactly `k + 1` requests were issued when the failure
hit iteration `k`, no retry consumes the remaining attempt budget, and
the coordinator ends in `ERROR` (with the status-check failure text
whenever the post-loop attempt-exhaustion overwrite does not apply). -/
theorem C3_poll_error_aborts (env : PollEnv) (c : Coord) (k : Nat) (e : String)
    (hp : c.isPolling = false)
    (hk : ∀ j, j < k → resultInactive (env.statusResult j))
    (hke : env.statusResult k = Except.error e)
    (ht : ∀ j, j ≤ k → env.elapsed j < env.timeoutMs)
    (hkm : k < 10) :
    countGetStatus (waitForSessionReady env c).2 = k + 1 ∧
    (waitForSessionReady env c).1.sessionState.status = "ERROR" ∧
    (k + 1 < 10 → (waitForSessionReady env c).1.sessionState.error = errStatusCheckMsg e) := by
  obtain ⟨hcoord, hcount, hatt, hearly⟩ :=
    pollLoop_error_reach env k e hk hke ht hkm maxAttempts 0
      { c with isPolling := true } [] rfl (Nat.zero_le k)
  refine ⟨?_, ?_, ?_⟩
  · rw [waitForSessionReady_events env c hp, hcount]
    simp [countGetStatus]
  · simp only [waitForSessionReady, hp, Bool.false_eq_true, if_false]
    rw [if_neg (by simp [hearly])]
    by_cases hA : maxAttempts ≤
        (pollLoop env maxAttempts maxAttempts 0 { c with isPolling := true } []).attempts
    · rw [if_pos hA]
    · rw [if_neg hA, hcoord]
  · intro hlt
    have hA : ¬ maxAttempts ≤
        (pollLoop env maxAttempts maxAttempts 0 { c with isPolling := true } []).attempts := by
      rw [hatt]
      have hm : maxAttempts = 10 := rfl
      omega
    simp only [waitForSessionReady, hp, Bool.false_eq_true, if_false]
    rw [if_neg (by simp [hearly]), if_neg hA, hcoord]

/-- Witness for C3: the third poll throws `boom`; exactly 3 requests
are issued and the attempt ends in `ERROR` with the status-check
failure text. -/
theorem C3_poll_error_aborts_witness :
    countGetStatus (waitForSessionReady throwingPollEnv initCoord).2 = 3 ∧
    (waitForSessionReady throwingPollEnv initCoord).1.sessionState.status = "ERROR" ∧
    (waitForSessionReady throwingPollEnv initCoord).1.sessionState.error =
      errStatusCheckMsg "boom" := by
  have h := C3_poll_error_aborts throwingPollEnv initCoord 2 "boom" rfl
    (fun j hj => ⟨pendingSession, by simp [throwingPollEnv, hj], by decide, rfl⟩)
    rfl
    (fun j _ => by show (0 : Nat) < 60000; decide)
    (by decide)
  exact ⟨h.1, h.2.1, h.2.2 (by decide)⟩

theorem waitForSessionReady_first_active (env : PollEnv) (c : Coord) (sd : StreamSession)
    (hp : c.isPolling = false)
    (h0 : env.statusResult 0 = Except.ok sd)
    (ht0 : env.elapsed 0 < env.timeoutMs)
    (hact : sd.status = "ACTIVE" ∨ sd.signalResponse ≠ "")
    (hsig : sd.signalResponse ≠ "") :
    waitForSessionReady env c =
      match env.consumeResult sd.signalResponse with
      | Except.ok _ =>
        ({ c with
             sessionState := { c.sessionState with
               status := "ACTIVE", sessionArn := sd.arn, region := sd.region,
               signalResponse := sd.signalResponse }
             streamReady := true
             isPolling := false },
         [Event.statusOk sd, Event.consumeSignal sd.signalResponse, Event.streamReadySet])
      | Except.error e =>
        ({ c with
             sessionState := { c.sessionState with
               status := "ERROR", sessionArn := sd.arn, region := sd.region,
               error := errProcessSignalMsg e, signalResponse := sd.signalResponse }
             isPolling := false },
         [Event.statusOk sd, Event.consumeSignal sd.signalResponse]) := by
  simp only [waitForSessionReady, hp, Bool.false_eq_true, if_false]
  rw [show (maxAttempts : Nat) = 9 + 1 from rfl]
  simp only [pollLoop]
  rw [if_neg (not_le.mpr ht0)]
  simp only [h0]
  rw [if_pos hact, if_pos hsig]
  cases hc : env.consumeResult sd.signalResponse with
  | ok u => rfl
  | error e => rfl

/-- C2: after `createSession` succeeds, if the first poll response
satisfies the active detection (`status == "ACTIVE"` or a non-empty
signal response — the degraded heuristic) and carries a non-empty
remote signal, then the coordinator enters `ACTIVE` and reports ready
(in the order create, status, consume, ready) exactly when
`processSignalResponse` succeeds on that signal; if consuming the
signal fails, the coordinator ends in `ERROR` instead. -/
theorem C2_active_transition (env : StartEnv) (c : Coord) (resp sd : StreamSession)
    (hp : c.isPolling = false)
    (hcr : env.createResult = Except.ok resp)
    (h0 : env.poll.statusResult 0 = Except.ok sd)
    (ht0 : env.poll.elapsed 0 < env.poll.timeoutMs)
    (hact : sd.status = "ACTIVE" ∨ sd.signalResponse ≠ "")
    (hsig : sd.signalResponse ≠ "") :
    (env.poll.consumeResult sd.signalResponse = Except.ok () →
       (startGameSession env c).1.sessionState.status = "ACTIVE" ∧
       (startGameSession env c).1.sessionState.signalResponse = sd.signalResponse ∧
       (startGameSession env c).1.streamReady = true ∧
       (startGameSession env c).2 =
         [Event.createSession, Event.statusOk sd,
          Event.consumeSignal sd.signalResponse, Event.streamReadySet]) ∧
    (∀ e, env.poll.consumeResult sd.signalResponse = Except.error e →
       (startGameSession env c).1.sessionState.status = "ERROR" ∧
       (startGameSession env c).1.sessionState.error = errProcessSignalMsg e) := by
  simp only [startGameSession, hcr]
  rw [waitForSessionReady_first_active env.poll
      { sessionState :=
          { status := "WAITING_FOR_SESSION"
            sessionArn := resp.arn
            region := ""
            error := ""
            signalResponse := "" }
        streamReady := c.streamReady
        pollingTimeout := c.pollingTimeout
        isPolling := c.isPolling } sd hp h0 ht0 hact hsig]
  constructor
  · intro hc
    rw [hc]
    exact ⟨rfl, rfl, rfl, rfl⟩
  · intro e hc
    rw [hc]
    exact ⟨rfl, rfl⟩

/-- Witness for C2: the specification's scenario — `createSession`
returns `{arn:"s1"}`, `getSessionStatus` returns
`{status:"ACTIVE", signalResponse:"R"}`, `processSignalResponse`
succeeds — ends `ACTIVE` with the trace create, status, consume `R`,
ready. -/
theorem C2_active_transition_witness :
    (startGameSession scenarioStartEnv initCoord).1.sessionState.status = "ACTIVE" ∧
    (startGameSession scenarioStartEnv initCoord).1.sessionState.signalResponse = "R" ∧
    (startGameSession scenarioStartEnv initCoord).1.streamReady = true ∧
    (startGameSession scenarioStartEnv initCoord).2 =
      [Event.createSession, Event.statusOk activeSessionR,
       Event.consumeSignal "R", Event.streamReadySet] :=
  (C2_active_transition scenarioStartEnv initCoord
    { arn := "s1", region := "", status := "", signalResponse := "" } activeSessionR
    rfl rfl rfl (by show (0 : Nat) < 60000; decide)
    (Or.inl rfl) (by decide)).1 rfl

/-- C6: whenever `createStreamSession` fails, the coordinator ends in
`ERROR` (so its status never remains `CREATING_SESSION`), with the
network-specific text exactly when the thrown message contains
`Network request failed`, and with the generic API text otherwise; the
two texts can never coincide. -/
theorem C6_create_failure (env : StartEnv) (c : Coord) (msg : String)
    (h : env.createResult = Except.error msg) :
    (startGameSession env c).1.sessionState.status = "ERROR" ∧
    (msg ≠ "" ∧ containsSubstr msg netErrPattern = true →
       (startGameSession env c).1.sessionState.error = netErrMsg) ∧
    (¬ (msg ≠ "" ∧ containsSubstr msg netErrPattern = true) →
       (startGameSession env c).1.sessionState.error =
         "API Error: " ++ (if msg = "" then "Unknown API error" else msg)) ∧
    (∀ x : String, netErrMsg ≠ "API Error: " ++ x) := by
  have hne : ∀ x : String, netErrMsg ≠ "API Error: " ++ x := by
    intro x hx
    have hd : netErrMsg.data.head? = ("API Error: " ++ x).data.head? := by rw [hx]
    rw [String.data_append] at hd
    have hd2 : netErrMsg.data.head? = some 'A' := hd.trans rfl
    exact absurd hd2 (by decide)
  simp only [startGameSession, h]
  by_cases hc : msg ≠ "" ∧ containsSubstr msg netErrPattern = true
  · rw [if_pos hc]
    exact ⟨rfl, fun _ => rfl, fun hn => absurd hc hn, hne⟩
  · rw [if_neg hc]
    exact ⟨rfl, fun hcc => absurd hcc hc, fun _ => rfl, hne⟩

/-- Witness for C6: a simulated `Network request failed: timeout`
yields `ERROR` with the network-specific message. -/
theorem C6_create_failure_witness :
    (startGameSession netFailStartEnv initCoord).1.sessionState.status = "ERROR" ∧
    (startGameSession netFailStartEnv initCoord).1.sessionState.error = netErrMsg := by
  have h := C6_create_failure netFailStartEnv initCoord "Network request failed: timeout" rfl
  exact ⟨h.1, h.2.1 ⟨by decide, by decide⟩⟩

/-- C7: at most one poll loop per session — a `waitForSessionReady`
call made while `isPolling` holds returns at once with no state change
and no requests; and of two runs of the mount effect only the first
invokes `startGameSession` (hence exactly one `createSession`). -/
theorem C7_single_poll_loop :
    (∀ env c, c.isPolling = true → waitForSessionReady env c = (c, [])) ∧
    (∀ env st, env.sdkOk = true → env.hasArnParam = false → env.authedWithIds = true →
       st.sessionArn = "" → st.sessionCreated = false →
       (mountEffect env st).2 = true ∧ (mountEffect env (mountEffect env st).1).2 = false) := by
  constructor
  · intro env c h
    simp [waitForSessionReady, h]
  · intro env st h1 h2 h3 h4 h5
    constructor
    · simp [mountEffect, h1, h2, h3, h4, h5]
    · simp [mountEffect, h1, h2, h3, h4, h5]

/-- Witness for C7: a duplicate `waitForSessionReady` call is a no-op,
and the second mount-effect run does not start a second session. -/
theorem C7_single_poll_loop_witness :
    waitForSessionReady foreverPendingEnv { initCoord with isPolling := true } =
      ({ initCoord with isPolling := true }, []) ∧
    (mountEffect ⟨true, false, true⟩ ⟨"", false⟩).2 = true ∧
    (mountEffect ⟨true, false, true⟩ (mountEffect ⟨true, false, true⟩ ⟨"", false⟩).1).2
      = false :=
  ⟨C7_single_poll_loop.1 foreverPendingEnv { initCoord with isPolling := true } rfl,
   (C7_single_poll_loop.2 ⟨true, false, true⟩ ⟨"", false⟩ rfl rfl rfl rfl rfl).1,
   (C7_single_poll_loop.2 ⟨true, false, true⟩ ⟨"", false⟩ rfl rfl rfl rfl rfl).2⟩

/-- C8: teardown is best-effort — a failing backend terminate call is
logged and never escalated: the confirmed-exit path still ends with
`router.back()` whether the call succeeds or fails, and neither
teardown path modifies the stored state. -/
theorem C8_terminate_best_effort (st : SessionViewState) (e : String) :
    ((handleCloseSession false true st (Except.ok ())).2).getLast? = some Event.navBack ∧
    ((handleCloseSession false true st (Except.error e)).2).getLast? = some Event.navBack ∧
    (st.sessionArn ≠ "" →
       Event.logError ("Error terminating session: " ++ e) ∈
         (handleCloseSession false true st (Except.error e)).2 ∧
       Event.logError ("Error terminating session: " ++ e) ∈
         (handleCloseSession true true st (Except.error e)).2) ∧
    (handleCloseSession false true st (Except.error e)).1 = st ∧
    (handleCloseSession true true st (Except.error e)).1 = st := by
  by_cases ha : st.sessionArn = "" <;>
    simp [handleCloseSession, terminateAttemptEvents, ha]

/-- Witness for C8: from a live session, a failing terminate is logged
and the confirmed-exit path still navigates back. -/
theorem C8_terminate_best_effort_witness :
    ((handleCloseSession false true liveState (Except.error "boom")).2).getLast?
      = some Event.navBack ∧
    Event.logError ("Error terminating session: " ++ "boom") ∈
      (handleCloseSession false true liveState (Except.error "boom")).2 :=
  ⟨(C8_terminate_best_effort liveState "boom").2.1,
   ((C8_terminate_best_effort liveState "boom").2.2.1 (by decide)).1⟩

/-- Counterexample to C5: from a live session (`arn = "s1"`), two
sequential `handleCloseSession(true)` invocations issue two backend
terminate calls, not one — the handler never clears the stored arn. -/
theorem C5_terminate_twice_counterexample :
    countTerminate ((handleCloseSession true true liveState (Except.ok ())).2 ++
      (handleCloseSession true true (handleCloseSession true true liveState (Except.ok ())).1
        (Except.ok ())).2) = 2 ∧
    ¬ countTerminate ((handleCloseSession true true liveState (Except.ok ())).2 ++
      (handleCloseSession true true (handleCloseSession true true liveState (Except.ok ())).1
        (Except.ok ())).2) = 1 := by
  constructor
  · decide
  · decide

/-- C5 amended: `terminate` leaves the stored state (in particular the
arn) unchanged, so each of two sequential invocations with a non-empty
arn issues its own backend terminate call (two in total); only when
the arn is empty is an invocation a no-op with no backend call. -/
theorem C5_terminate_amended (st : SessionViewState) (skip1 skip2 : Bool)
    (r1 r2 : Except String Unit) :
    (st.sessionArn ≠ "" →
       countTerminate ((handleCloseSession skip1 true st r1).2 ++
         (handleCloseSession skip2 true (handleCloseSession skip1 true st r1).1 r2).2) = 2) ∧
    (st.sessionArn = "" →
       countTerminate ((handleCloseSession skip1 true st r1).2 ++
         (handleCloseSession skip2 true (handleCloseSession skip1 true st r1).1 r2).2) = 0) ∧
    (handleCloseSession skip2 true (handleCloseSession skip1 true st r1).1 r2).1.sessionArn
      = st.sessionArn := by
  by_cases ha : st.sessionArn = "" <;>
    cases skip1 <;> cases skip2 <;> cases r1 <;> cases r2 <;>
      simp [handleCloseSession, terminateAttemptEvents, countTerminate, isTerminateEvent, ha,
        List.countP_append, List.countP_cons, List.countP_nil]

/-- Witness for the amended C5: two sequential skip-confirmation
teardowns of a live session issue two backend terminate calls. -/
theorem C5_terminate_amended_witness :
    countTerminate ((handleCloseSession true true liveState (Except.ok ())).2 ++
      (handleCloseSession true true (handleCloseSession true true liveState (Except.ok ())).1
        (Except.ok ())).2) = 2 :=
  (C5_terminate_amended liveState true true (Except.ok ()) (Except.ok ())).1 (by decide)

theorem consumePreceded_nil : consumePreceded [] := by
  intro s hs
  exact absurd hs (List.not_mem_nil _)

theorem consumePreceded_append_one (evs : List Event) (ev : Event)
    (h : consumePreceded evs) (hne : ∀ s, ev ≠ Event.consumeSignal s) :
    consumePreceded (evs ++ [ev]) := by
  intro s hs
  rcases List.mem_append.1 hs with h1 | h1
  · obtain ⟨hs0, sd, pre, post, hsd, heq⟩ := h s h1
    refine ⟨hs0, sd, pre, post ++ [ev], hsd, ?_⟩
    rw [heq]
    simp
  · have h2 : Event.consumeSignal s = ev := by simpa using h1
    exact absurd h2.symm (hne s)

theorem consumePreceded_cons (evs : List Event) (ev : Event)
    (h : consumePreceded evs) (hne : ∀ s, ev ≠ Event.consumeSignal s) :
    consumePreceded (ev :: evs) := by
  intro s hs
  rcases List.mem_cons.1 hs with h1 | h1
  · exact absurd h1.symm (hne s)
  · obtain ⟨hs0, sd, pre, post, hsd, heq⟩ := h s h1
    refine ⟨hs0, sd, ev :: pre, post, hsd, ?_⟩
    rw [heq]
    simp

theorem consumePreceded_append_consume (evs : List Event) (sd : StreamSession)
    (post : List Event) (h : consumePreceded evs) (hsig : sd.signalResponse ≠ "")
    (hpost : ∀ s, Event.consumeSignal s ∉ post) :
    consumePreceded
      (evs ++ Event.statusOk sd :: Event.consumeSignal sd.signalResponse :: post) := by
  intro s hs
  rcases List.mem_append.1 hs with h1 | h1
  · obtain ⟨hs0, sd2, pre, post2, hsd2, heq⟩ := h s h1
    refine ⟨hs0, sd2, pre,
      post2 ++ Event.statusOk sd :: Event.consumeSignal sd.signalResponse :: post, hsd2, ?_⟩
    rw [heq]
    simp
  · rcases List.mem_cons.1 h1 with h2 | h2
    · exact absurd h2 (by simp)
    · rcases List.mem_cons.1 h2 with h3 | h3
      · have hss : s = sd.signalResponse := by simpa using h3
        subst hss
        exact ⟨hsig, sd, evs, post, rfl, rfl⟩
      · exact absurd h3 (hpost s)

theorem pollLoop_consumePreceded (env : PollEnv) (m : Nat) :
    ∀ fuel i c evs, consumePreceded evs →
      consumePreceded (pollLoop env m fuel i c evs).events := by
  intro fuel
  induction fuel with
  | zero => intro i c evs h; exact h
  | succ f ih =>
    intro i c evs h
    simp only [pollLoop]
    by_cases ht : env.timeoutMs ≤ env.elapsed i
    · rw [if_pos ht]
      exact h
    · rw [if_neg ht]
      cases hs : env.statusResult i with
      | error e =>
        exact consumePreceded_append_one evs _ h (fun s => by simp)
      | ok sd =>
        by_cases ha : sd.status = "ACTIVE" ∨ sd.signalResponse ≠ ""
        · simp only [ha, if_true]
          by_cases hsr : sd.signalResponse = ""
          · rw [if_neg (by simp [hsr])]
            exact consumePreceded_append_one _ _
              (consumePreceded_append_one _ _ h (fun s => by simp)) (fun s => by simp)
          · rw [if_pos (show sd.signalResponse ≠ "" from hsr)]
            cases hc : env.consumeResult sd.signalResponse with
            | ok u =>
              have heq : (evs ++ [Event.statusOk sd]) ++
                  [Event.consumeSignal sd.signalResponse, Event.streamReadySet] =
                  evs ++ Event.statusOk sd :: Event.consumeSignal sd.signalResponse ::
                    [Event.streamReadySet] := by simp
              show consumePreceded ((evs ++ [Event.statusOk sd]) ++
                [Event.consumeSignal sd.signalResponse, Event.streamReadySet])
              rw [heq]
              exact consumePreceded_append_consume evs sd [Event.streamReadySet] h hsr
                (fun s => by simp)
            | error e =>
              have heq : (evs ++ [Event.statusOk sd]) ++
                  [Event.consumeSignal sd.signalResponse] =
                  evs ++ Event.statusOk sd :: Event.consumeSignal sd.signalResponse ::
                    ([] : List Event) := by simp
              show consumePreceded ((evs ++ [Event.statusOk sd]) ++
                [Event.consumeSignal sd.signalResponse])
              rw [heq]
              exact consumePreceded_append_consume evs sd [] h hsr (fun s => by simp)
        · simp only [ha, if_false]
          by_cases hl : i = m - 1
          · rw [if_pos hl]
            exact consumePreceded_append_one _ _ h (fun s => by simp)
          · rw [if_neg hl]
            exact ih _ _ _ (consumePreceded_append_one _ _ h (fun s => by simp))

theorem waitForSessionReady_consumePreceded (env : PollEnv) (c : Coord) :
    consumePreceded (waitForSessionReady env c).2 := by
  by_cases h : c.isPolling
  · simp only [waitForSessionReady, h, if_true]
    exact consumePreceded_nil
  · rw [waitForSessionReady_events env c (by simpa using h)]
    exact pollLoop_consumePreceded env maxAttempts maxAttempts 0 _ [] consumePreceded_nil

/-- C9: in every session attempt the `createSession` call is the first
recorded action (so it precedes the first `getSessionStatus`), and
every `processSignalResponse` call happens right after a status
response that carried that non-empty remote signal. -/
theorem C9_call_ordering :
    ∀ env c,
      ((startGameSession env c).2).head? = some Event.createSession ∧
      consumePreceded (startGameSession env c).2 := by
  intro env c
  cases hcr : env.createResult with
  | error msg =>
    simp only [startGameSession, hcr]
    by_cases hc : msg ≠ "" ∧ containsSubstr msg netErrPattern = true
    · rw [if_pos hc]
      refine ⟨rfl, ?_⟩
      intro s hs
      simp at hs
    · rw [if_neg hc]
      refine ⟨rfl, ?_⟩
      intro s hs
      simp at hs
  | ok resp =>
    simp only [startGameSession, hcr]
    refine ⟨rfl, ?_⟩
    exact consumePreceded_cons _ _ (waitForSessionReady_consumePreceded env.poll _)
      (fun s => by simp)

/-- Witness for C9: the ordering holds on the concrete scenario run. -/
theorem C9_call_ordering_witness :
    ((startGameSession scenarioStartEnv initCoord).2).head? = some Event.createSession ∧
    consumePreceded (startGameSession scenarioStartEnv initCoord).2 :=
  C9_call_ordering scenarioStartEnv initCoord

/-- C10: `createStreamSession` accepts its regions argument as a
single string or an array; the request body's `Regions` field is
always an array — a single string is wrapped into a one-element array
— and an omitted argument defaults to `['us-west-2']`. -/
theorem C10_regions_normalization :
    (∀ appId sgId sig s,
       (createStreamSessionPayload appId sgId sig (some (RegionsArg.one s))).Regions = [s]) ∧
    (∀ appId sgId sig l,
       (createStreamSessionPayload appId sgId sig (some (RegionsArg.many l))).Regions = l) ∧
    (∀ appId sgId sig,
       (createStreamSessionPayload appId sgId sig none).Regions = ["us-west-2"]) :=
  ⟨fun _ _ _ _ => rfl, fun _ _ _ _ => rfl, fun _ _ _ => rfl⟩
